import Mathlib

/-
Verification development for the static-layout PNOR code-management core
(item_updater_static.cpp).  The C++ source is shallowly embedded below:

* `utils::getPartsToClear(const std::string&)` — a pure line parser, embedded
  over `List Char` (`getLines`, `parseLine`, `getPartsToClear`).
* the version-blob decoding of `utils::getPNORVersion` (the ifstream section,
  lines 90-103) — embedded as `getVersionFromBlob` over `List Nat` bytes.
* the effectful parts of `utils::pflash`, `utils::pnorClear`,
  `utils::getPNORVersion`, `ItemUpdaterStatic::reset` and
  `GardResetStatic::reset` — embedded as functions of an explicit environment
  `Env` (outcomes of mkdtemp, popen, pclose, the file contents, remove_all)
  returning an `Except` (exception propagation: `utils::pflash` throws
  `std::runtime_error` when `popen` returns null, and nothing in this file
  catches it) paired with a trace of externally visible events.
* `ItemUpdaterStatic::processPNORImage`, `isVersionFunctional` and
  `updateFunctionalAssociation` — embedded as explicit state passing over
  `UState`.  The collaborators `Version::getVersions` / `Version::getId`
  (version.cpp, not part of the core) are parameters.
-/

/- ----------------------------------------------------------------------
§1  Partition inventory parser: `utils::getPartsToClear` (lines 139-186).
---------------------------------------------------------------------- -/

/-- The lines produced by `while (std::getline(iss, line))` on the listing:
`splitOn` by the newline character, except that a trailing newline does not
produce a final empty line and an empty input produces no line at all. -/
def getLines (cs : List Char) : List (List Char) :=
  if cs = [] then []
  else if cs.getLast? = some '\n' then (cs.splitOn '\n').dropLast
  else cs.splitOn '\n'

/-- One iteration of the loop body of `getPartsToClear` (lines 145-184); each
`continue` is `none`.  The C++ index-and-`substr` operations are rendered with
`takeWhile` / `dropWhile`:

* `pos = line.find('[')` with the `npos` guard, then `flags = line.substr(pos)`
  — the suffix of the line from its first `[` (to the end of the line, not to
  the closing bracket);
* `flags.find('F') != npos` — `flags.contains 'F'`;
* `pos = line.find_first_of(' ')` with guard, `line = line.substr(pos)` — the
  suffix from the first space;
* `pos = line.find_first_not_of(' ')` with guard, `line = line.substr(pos)` —
  drop the spaces (when the rest is all spaces the guard fires and both
  renderings answer `none`);
* `pos = line.find_first_of(' ')` with guard, `line = line.substr(0, pos)` —
  the partition name is everything up to the next space;
* `ecc = flags.find('E') != std::string::npos`. -/
def parseLine (line : List Char) : Option (List Char × Bool) :=
  if line.contains '[' then
    let flags := line.dropWhile (fun c => !(c == '['))
    if flags.contains 'F' then
      if line.contains ' ' then
        let l1 := line.dropWhile (fun c => !(c == ' '))
        let l2 := l1.dropWhile (fun c => c == ' ')
        if l2.contains ' ' then
          some (l2.takeWhile (fun c => !(c == ' ')), flags.contains 'E')
        else none
      else none
    else none
  else none

/-- The accumulating loop of `getPartsToClear`: `ret.emplace_back(line, ecc)`
appends at the back, so results keep input line order. -/
def getPartsToClearLoop (ls : List (List Char)) (ret : List (List Char × Bool)) :
    List (List Char × Bool) :=
  match ls with
  | [] => ret
  | l :: rest =>
    match parseLine l with
    | none => getPartsToClearLoop rest ret
    | some d => getPartsToClearLoop rest (ret ++ [d])

/-- `utils::getPartsToClear(const std::string& info)` (lines 139-186). -/
def getPartsToClear (info : List Char) : List (List Char × Bool) :=
  getPartsToClearLoop (getLines info) []

/-- Modelled from the spec: the "bracketed flag field" of an inventory line —
the characters strictly between the line's first `[` and the `]` that closes
it.  Used only to compare the spec's wording with what the source computes. -/
def specFlagField (line : List Char) : List Char :=
  ((line.dropWhile (fun c => !(c == '['))).drop 1).takeWhile (fun c => !(c == ']'))

/- ----------------------------------------------------------------------
§2  Version-blob decoding: the ifstream section of `utils::getPNORVersion`
    (lines 90-103).
---------------------------------------------------------------------- -/

/-- The signed-container magic `{0x17, 0x08, 0x20, 0x11}` (line 67). -/
def MAGIC : List Nat := [0x17, 0x08, 0x20, 0x11]

/-- `getline(f, version, '\0')`: the bytes up to the first NUL byte or the end
of the data, whichever comes first. -/
def readToNul (bs : List Nat) : List Nat :=
  bs.takeWhile (fun b => !(b == 0))

/-- Decoding of the version file (lines 90-103).  `f.read(magic, 4)` on a file
shorter than 4 bytes extracts fewer than 4 characters and sets
`failbit | eofbit`; the following `seekg` clears only `eofbit`, so its sentry
fails with `failbit` still set and the `getline` extracts nothing — every blob
shorter than 4 bytes therefore decodes to the empty string.  Otherwise the
blob is compared against `MAGIC`; on a match `f.ignore(4096)` skips the 4K
header before the NUL-terminated read (when fewer than 4096 bytes exist the
`ignore` ends at end-of-file and the `getline` again extracts nothing, which
coincides with reading from an empty remainder). -/
def getVersionFromBlob (blob : List Nat) : List Nat :=
  if blob.length < 4 then []
  else if blob.take 4 = MAGIC then readToNul (blob.drop 4096)
  else readToNul blob

/- ----------------------------------------------------------------------
§3  Effectful code: pflash / pnorClear / getPNORVersion / the two resets.
---------------------------------------------------------------------- -/

/-- Outcomes of the external calls made by the source.  `popen` returning null
makes `utils::pflash` throw (line 51); `pclose` supplies the exit status that
the callers test; `mkdtemp` may fail (line 73); `fs::remove_all` reports its
result through an `error_code` (line 107).  `listRc` is recorded because
`pflash -i`'s status is returned to `getPartsToClear()` — which discards it
(line 191). -/
structure Env where
  listPopenOk : Bool
  listRc : Int
  listing : List Char
  clearPopenOk : List Char → Bool → Bool
  clearRc : List Char → Bool → Int
  mkdtempOk : Bool
  readPopenOk : Bool
  readRc : Int
  versionBytes : List Nat
  removeOk : Bool

/-- Externally visible events, one per external call site of the source:
the inventory subprocess of `getPartsToClear()` (line 191), the
`hiomapdSuspend` / `hiomapdResume` signals (modelled from the spec as
fire-and-forget calls that emit no data and do not fail), a completed
partition-clear subprocess with its success bit (lines 121-122), the
`mkdtemp` call (line 73), the VERSION-read subprocess (line 83), and the
`fs::remove_all` call with its success bit (line 107). -/
inductive Event where
  | listParts
  | suspend
  | clear (part : List Char) (ecc : Bool) (ok : Bool)
  | resume
  | mkdtempCall (ok : Bool)
  | readVersionCall
  | removeAll (ok : Bool)
deriving DecidableEq

def isSuspend : Event → Bool
  | Event.suspend => true
  | _ => false

def isResume : Event → Bool
  | Event.resume => true
  | _ => false

def isClear : Event → Bool
  | Event.clear _ _ _ => true
  | _ => false

def isListParts : Event → Bool
  | Event.listParts => true
  | _ => false

def isRemove : Event → Bool
  | Event.removeAll _ => true
  | _ => false

def isMkdtempOkCall : Event → Bool
  | Event.mkdtempCall ok => ok
  | _ => false

def isOkResult {α : Type} : Except Unit α → Bool
  | Except.ok _ => true
  | Except.error _ => false

/-- `utils::pnorClear(part, shouldEcc)` (lines 118-134).  It runs `pflash -P
part (-c|-e) -f`; a null `popen` pipe makes `pflash` throw and the exception
propagates (no catch in `pnorClear`).  A non-zero exit status is only logged
(lines 123-128): the function still returns normally, recorded as a `clear`
event with `ok = false`. -/
def pnorClear (env : Env) (part : List Char) (ecc : Bool) :
    Except Unit Unit × List Event :=
  if env.clearPopenOk part ecc then
    (Except.ok (), [Event.clear part ecc (env.clearRc part ecc == 0)])
  else
    (Except.error (), [])

/-- The `for (auto p : partitions)` loop of `ItemUpdaterStatic::reset`
(lines 316-319): clears are attempted in order; an exception from one attempt
aborts the rest of the loop and propagates. -/
def clearLoop (env : Env) : List (List Char × Bool) → Except Unit Unit × List Event
  | [] => (Except.ok (), [])
  | p :: ps =>
    match pnorClear env p.1 p.2 with
    | (Except.ok _, es) =>
      match clearLoop env ps with
      | (r, es2) => (r, es ++ es2)
    | (Except.error e, es) => (Except.error e, es)

/-- `ItemUpdaterStatic::reset()` (lines 310-322): query the candidates (the
`pflash -i` subprocess of line 191 feeding the parser), then suspend, clear
each candidate, resume.  An exception anywhere (null pipe in any `pflash`)
propagates: from the inventory call nothing else runs; from a clear the
remaining clears and `hiomapdResume` are skipped. -/
def itemUpdaterReset (env : Env) : Except Unit Unit × List Event :=
  if env.listPopenOk then
    match clearLoop env (getPartsToClear env.listing) with
    | (Except.ok _, es) =>
      (Except.ok (), Event.listParts :: Event.suspend :: (es ++ [Event.resume]))
    | (Except.error e, es) =>
      (Except.error e, Event.listParts :: Event.suspend :: es)
  else
    (Except.error (), [])

def guardPartName : List Char := "GUARD".data

/-- `GardResetStatic::reset()` (lines 361-369): suspend, `pnorClear("GUARD")`
with the defaulted `shouldEcc = true` (line 118), resume; no partition
discovery.  As above, a null pipe in the clear's `pflash` throws past the
resume call. -/
def gardReset (env : Env) : Except Unit Unit × List Event :=
  match pnorClear env guardPartName true with
  | (Except.ok _, es) =>
    (Except.ok (), Event.suspend :: (es ++ [Event.resume]))
  | (Except.error e, es) =>
    (Except.error e, Event.suspend :: es)

/-- The `pflash -P VERSION -r versionFile` invocation of `getPNORVersion`
(lines 82-83): a null pipe throws; otherwise the exit status and the bytes the
subprocess left in the version file are produced. -/
def pflashRead (env : Env) : Except Unit (Int × List Nat) × List Event :=
  if env.readPopenOk then
    (Except.ok (env.readRc, env.versionBytes), [Event.readVersionCall])
  else
    (Except.error (), [])

/-- `utils::getPNORVersion()` (lines 61-116).  `mkdtemp` failure returns the
empty string before any subprocess runs (lines 73-77).  A non-zero exit status
of the read subprocess returns the empty string without opening the file — and
also without removing the temp directory (lines 84-88: the early return comes
before the `remove_all` of line 107).  On a zero exit status the file is
decoded (`getVersionFromBlob`) and the temp directory is removed, the
`remove_all` outcome being only logged (lines 106-113). -/
def getPNORVersion (env : Env) : Except Unit (List Nat) × List Event :=
  if env.mkdtempOk then
    match pflashRead env with
    | (Except.ok (rc, bytes), es) =>
      if rc == 0 then
        (Except.ok (getVersionFromBlob bytes),
         (Event.mkdtempCall true :: es) ++ [Event.removeAll env.removeOk])
      else
        (Except.ok [], Event.mkdtempCall true :: es)
    | (Except.error e, es) => (Except.error e, Event.mkdtempCall true :: es)
  else
    (Except.ok [], [Event.mkdtempCall false])

/- ----------------------------------------------------------------------
§4  Activation engine: `ItemUpdaterStatic::processPNORImage`,
    `isVersionFunctional`, `updateFunctionalAssociation` (lines 235-359).
---------------------------------------------------------------------- -/

/-- Modelled from the spec: the build-time path and association constants of
config.h (not part of the core sources).  Their concrete values never matter
to the claims; only their identity does. -/
def SOFTWARE_OBJPATH : String := "/xyz/openbmc_project/software"

def ACTIVATION_FWD_ASSOCIATION : String := "inventory"

def ACTIVATION_REV_ASSOCIATION : String := "activation"

def HOST_INVENTORY_PATH : String := "/xyz/openbmc_project/inventory/system/chassis"

/-- The two activation states reachable in the static layout (lines 248-261). -/
inductive ActState where
  | Active
  | Invalid
deriving DecidableEq

/-- The `ActivationStatic` object built at lines 283-286, together with the
`RedundancyPriority` optionally attached at lines 289-295. -/
structure ActEntry where
  versionId : String
  path : String
  extendedVersion : String
  activation : ActState
  associations : List (String × String × String)
  redundancyPriority : Option Nat
deriving DecidableEq

/-- The `Version` companion object built at lines 298-302 (`purpose` is always
`Host` here, line 263; the source path is empty; a `Delete` capability is
attached, line 301). -/
structure VerEntry where
  versionId : String
  path : String
  version : String
  filePath : String
  hasDelete : Bool
deriving DecidableEq

/-- The updater's observable state: the `activations` and `versions` maps, the
`functionalVersionId` member, and the association edges created through the
base-class helpers. -/
structure UState where
  activations : List (String × ActEntry)
  versions : List (String × VerEntry)
  functionalVersionId : String
  activeAssocs : List String
  updateableAssocs : List String
  functionalAssocs : List String
deriving DecidableEq

def emptyUState : UState :=
  { activations := [], versions := [], functionalVersionId := "",
    activeAssocs := [], updateableAssocs := [], functionalAssocs := [] }

/-- `std::map::insert`: inserts only when the key is absent (it never
overwrites an existing entry). -/
def mapInsert {α : Type} (k : String) (v : α) (m : List (String × α)) :
    List (String × α) :=
  if (m.lookup k).isSome then m else (k, v) :: m

/-- `activations.find(id)->second->redundancyPriority = ... 0` (lines 292-294):
the entry stored under `id` has its priority set to 0. -/
def setPriority (id : String) (m : List (String × ActEntry)) :
    List (String × ActEntry) :=
  m.map (fun kv =>
    if kv.1 = id then (kv.1, { kv.2 with redundancyPriority := some 0 }) else kv)

/-- Modelled from the spec: `ItemUpdater::createActiveAssociation(path)` (base
class, not in the core sources) — marks the image path as an "active"
association target. -/
def createActiveAssociation (s : UState) (path : String) : UState :=
  { s with activeAssocs := s.activeAssocs ++ [path] }

/-- Modelled from the spec: `ItemUpdater::createUpdateableAssociation(path)`
(base class, not in the core sources) — attaches the "updateable" association
to the image path. -/
def createUpdateableAssociation (s : UState) (path : String) : UState :=
  { s with updateableAssocs := s.updateableAssocs ++ [path] }

/-- `ItemUpdaterStatic::updateFunctionalAssociation` (lines 354-359): records
the id in `functionalVersionId` and forwards to the base-class association
update (the forward target is not in the core sources; modelled from the spec
as appending a "functional" edge for the id). -/
def updateFunctionalAssociation (s : UState) (versionId : String) : UState :=
  { s with functionalVersionId := versionId,
           functionalAssocs := s.functionalAssocs ++ [versionId] }

/-- `ItemUpdaterStatic::processPNORImage()` (lines 235-308), parameterised by
the collaborators `Version::getVersions` (`gV`) and `Version::getId` (`gId`),
which live in version.cpp outside the core, and by the `fullVersion` string
returned by `getPNORVersion` (line 237).  The body follows the source line by
line: the early return on an empty id (lines 242-246); the activation state
(Active unless `version` or `extendedVersion` is empty, lines 248-261); the
host-inventory association and active association for an Active image (lines
267-276); the unconditional updateable association (line 280); the map inserts
(lines 283-286 and 298-302); the priority for an Active image (lines 289-295);
and the functional update guarded by `!id.empty()` (lines 304-307). -/
def processPNORImage (gV : String → String × String) (gId : String → String)
    (s : UState) (fullVersion : String) : UState :=
  let version := (gV fullVersion).1
  let extendedVersion := (gV fullVersion).2
  let id := gId version
  if id = "" then s
  else
    let activationState :=
      if version = "" then ActState.Invalid
      else if extendedVersion = "" then ActState.Invalid
      else ActState.Active
    let path := SOFTWARE_OBJPATH ++ "/" ++ id
    let associations :=
      if activationState = ActState.Active then
        [(ACTIVATION_FWD_ASSOCIATION, ACTIVATION_REV_ASSOCIATION,
          HOST_INVENTORY_PATH)]
      else []
    let s1 :=
      if activationState = ActState.Active then createActiveAssociation s path
      else s
    let s2 := createUpdateableAssociation s1 path
    let actEntry : ActEntry :=
      { versionId := id, path := path, extendedVersion := extendedVersion,
        activation := activationState, associations := associations,
        redundancyPriority := none }
    let s3 := { s2 with activations := mapInsert id actEntry s2.activations }
    let s4 :=
      if activationState = ActState.Active then
        { s3 with activations := setPriority id s3.activations }
      else s3
    let verEntry : VerEntry :=
      { versionId := id, path := path, version := version, filePath := "",
        hasDelete := true }
    let s5 := { s4 with versions := mapInsert id verEntry s4.versions }
    if id = "" then s5 else updateFunctionalAssociation s5 id

/-- `ItemUpdaterStatic::isVersionFunctional` (lines 324-327). -/
def isVersionFunctional (s : UState) (versionId : String) : Bool :=
  versionId == s.functionalVersionId

/-- A run of the engine: `processPNORImage` applied once per scanned image. -/
def runProcess (gV : String → String × String) (gId : String → String)
    (s : UState) (fvs : List String) : UState :=
  fvs.foldl (processPNORImage gV gId) s

/-- The id of the most recent invocation that derived a non-empty id (the
initial marker when there is none). -/
def lastNonEmptyId (gV : String → String × String) (gId : String → String)
    (init : String) (fvs : List String) : String :=
  fvs.foldl (fun acc fv => if gId (gV fv).1 = "" then acc else gId (gV fv).1) init

/- ----------------------------------------------------------------------
§5  Concrete inputs used by counterexamples and witnesses.
---------------------------------------------------------------------- -/

/-- An inventory line whose flag block `[----]` carries no `F`, with a stray
`F` after the closing bracket. -/
def lineFOutside : List Char := "ID=06 MVPD 0x0..0x1 (actual=0x1) [----] F".data

/-- A well-formed reset-candidate line: `F` and `E` inside the flag block. -/
def lineGuard : List Char := "ID=09 GUARD 0x0..0x1 (actual=0x1) [E--F] ".data

/-- A line whose flag block has `F` but whose `E` sits after the bracket. -/
def lineEOutside : List Char := "ID=06 MVPD 0x0..0x1 (actual=0x1) [F---] E".data

def envBase : Env :=
  { listPopenOk := true, listRc := 0, listing := lineGuard,
    clearPopenOk := fun _ _ => true, clearRc := fun _ _ => 0,
    mkdtempOk := true, readPopenOk := true, readRc := 0,
    versionBytes := [], removeOk := true }

/-- Environment where the pipe for every partition-clear subprocess cannot be
created: `popen` returns null and `pflash` throws. -/
def envClearPopenFail : Env :=
  { envBase with clearPopenOk := fun _ _ => false }

/-- Environment where every clear's subprocess runs but exits non-zero. -/
def envClearRcFail : Env :=
  { envBase with clearRc := fun _ _ => 1 }

/-- Environment where the VERSION-read subprocess pipe cannot be created. -/
def envReadPopenFail : Env :=
  { envBase with readPopenOk := false }

/-- Environment where the VERSION-read subprocess exits non-zero. -/
def envReadRcFail : Env :=
  { envBase with readRc := 1, versionBytes := [65, 66] }

/-- Environment where `mkdtemp` fails. -/
def envMkdtempFail : Env :=
  { envBase with mkdtempOk := false }

/-- Environment for the successful read path with a failing `remove_all`. -/
def envRemoveFail : Env :=
  { envBase with versionBytes := [65, 66, 0, 67], removeOk := false }

/-- Collaborator stand-ins used by witnesses: fixed outputs for
`Version::getVersions` / `Version::getId`. -/
def gVBoth : String → String × String := fun _ => ("v1", "e1")

def gVNoExt : String → String × String := fun _ => ("v1", "")

def gIdSome : String → String := fun _ => "id1"

def gIdNone : String → String := fun _ => ""

/- ----------------------------------------------------------------------
§6  Helper lemmas.
---------------------------------------------------------------------- -/

theorem getPartsToClearLoop_eq (ls : List (List Char))
    (ret : List (List Char × Bool)) :
    getPartsToClearLoop ls ret = ret ++ ls.filterMap parseLine := by
  induction ls generalizing ret with
  | nil => simp [getPartsToClearLoop]
  | cons l rest ih =>
    cases h : parseLine l with
    | none => simp [getPartsToClearLoop, h, ih]
    | some d => simp [getPartsToClearLoop, h, ih]

theorem clearLoop_ok (env : Env) (ps : List (List Char × Bool))
    (h : ∀ p ∈ ps, env.clearPopenOk p.1 p.2 = true) :
    clearLoop env ps =
      (Except.ok (),
       ps.map (fun p => Event.clear p.1 p.2 (env.clearRc p.1 p.2 == 0))) := by
  induction ps with
  | nil => simp [clearLoop]
  | cons p ps ih =>
    have hp : env.clearPopenOk p.1 p.2 = true := h p (List.mem_cons_self p ps)
    have hrest : ∀ q ∈ ps, env.clearPopenOk q.1 q.2 = true :=
      fun q hq => h q (List.mem_cons_of_mem p hq)
    simp [clearLoop, pnorClear, hp, ih hrest]

/- ----------------------------------------------------------------------
§7  Claims.
---------------------------------------------------------------------- -/

/-- C3 (counterexample): a line whose bracketed flag field `[----]` contains no
`F`, but which carries a stray `F` after the closing bracket, is nevertheless
returned as a reset candidate — the source scans the whole suffix from the
first `[`, not the bracketed field. -/
theorem getPartsToClear_flag_outside :
    getPartsToClear lineFOutside = [("MVPD".data, false)] ∧
    (specFlagField lineFOutside).contains 'F' = false := by
  decide

/-- C3 (amended): candidates are produced in input line order (the loop is a
`filterMap` over the lines), only for lines that contain a `[` and whose
suffix from the first `[` contains `F`; a returned candidate's `requiresEcc`
bit equals `E`-membership in that same suffix. -/
theorem getPartsToClear_chars (info : List Char) :
    getPartsToClear info = (getLines info).filterMap parseLine ∧
    (∀ line d, parseLine line = some d →
      line.contains '[' = true ∧
      (line.dropWhile (fun c => !(c == '['))).contains 'F' = true ∧
      d.2 = (line.dropWhile (fun c => !(c == '['))).contains 'E') := by
  constructor
  · simpa using getPartsToClearLoop_eq (getLines info) []
  · intro line d h
    simp [parseLine] at h
    obtain ⟨ha, hb, _, _, he⟩ := h
    refine ⟨by simpa using ha, by simpa using hb, ?_⟩
    rw [← he]
    simp

/-- C3 (witness): the amended per-line property applied to a concrete
candidate line whose `E` sits outside the bracket — the source still reports
`requiresEcc = true`. -/
theorem getPartsToClear_chars_w :
    lineEOutside.contains '[' = true ∧
    (lineEOutside.dropWhile (fun c => !(c == '['))).contains 'F' = true ∧
    (("MVPD".data, true) : List Char × Bool).2 =
      (lineEOutside.dropWhile (fun c => !(c == '['))).contains 'E' :=
  (getPartsToClear_chars lineEOutside).2 lineEOutside
    (("MVPD".data, true)) (by decide)

/-- C4 (counterexample): the one-byte blob `[0x41]` has no magic prefix, yet
it decodes to the empty string (the initial 4-byte read fails), not to the
NUL-terminated text at offset 0 (`[0x41]`). -/
theorem getVersionFromBlob_short_blob :
    getVersionFromBlob [65] = [] ∧ readToNul [65] = [65] ∧
    ¬ List.take 4 [65] = MAGIC := by
  decide

/-- C4 (amended): for blobs of at least 4 bytes, a magic prefix makes version
decoding start at byte offset 4096 and its absence makes it start at offset 0,
the text running to the first NUL or end-of-data; blobs shorter than 4 bytes
decode to the empty string. -/
theorem getVersionFromBlob_offsets (blob : List Nat) :
    (4 ≤ blob.length → blob.take 4 = MAGIC →
      getVersionFromBlob blob = readToNul (blob.drop 4096)) ∧
    (4 ≤ blob.length → ¬ blob.take 4 = MAGIC →
      getVersionFromBlob blob = readToNul blob) ∧
    (blob.length < 4 → getVersionFromBlob blob = []) := by
  unfold getVersionFromBlob
  refine ⟨fun h1 h2 => ?_, fun h1 h2 => ?_, fun h1 => ?_⟩
  · rw [if_neg (by omega), if_pos h2]
  · rw [if_neg (by omega), if_neg h2]
  · rw [if_pos h1]

/-- C4 (witness): the offset rules evaluated at a magic-prefixed blob and at a
plain NUL-terminated blob. -/
theorem getVersionFromBlob_offsets_w :
    getVersionFromBlob [0x17, 0x08, 0x20, 0x11] =
      readToNul (List.drop 4096 [0x17, 0x08, 0x20, 0x11]) ∧
    getVersionFromBlob [65, 66, 0, 67] = readToNul [65, 66, 0, 67] :=
  ⟨(getVersionFromBlob_offsets [0x17, 0x08, 0x20, 0x11]).1 (by decide) (by decide),
   (getVersionFromBlob_offsets [65, 66, 0, 67]).2.1 (by decide) (by decide)⟩

/-- C10 (counterexample): when the pipe for the GUARD clear's subprocess
cannot be created, `pflash` throws; `GardResetStatic::reset` suspends but the
exception skips the resume call, so "exactly one resume after it" fails. -/
theorem gardReset_skips_resume :
    (gardReset envClearPopenFail).2 = [Event.suspend] ∧
    isOkResult (gardReset envClearPopenFail).1 = false ∧
    (gardReset envClearPopenFail).2.countP isResume = 0 := by
  decide

/-- C10 (amended): whenever the GUARD clear's subprocess pipe is created,
`GardResetStatic::reset` attempts exactly one clear — of the partition
`GUARD`, in the ECC-preserving mode that `pnorClear`'s defaulted parameter
selects — bracketed by exactly one suspend before it and one resume after it,
regardless of the clear's exit status, and performs no partition discovery. -/
theorem gardReset_bracket (env : Env)
    (h : env.clearPopenOk guardPartName true = true) :
    gardReset env =
      (Except.ok (), [Event.suspend,
        Event.clear guardPartName true (env.clearRc guardPartName true == 0),
        Event.resume]) ∧
    (gardReset env).2.countP isClear = 1 ∧
    (gardReset env).2.countP isSuspend = 1 ∧
    (gardReset env).2.countP isResume = 1 ∧
    (gardReset env).2.countP isListParts = 0 := by
  have he : gardReset env =
      (Except.ok (), [Event.suspend,
        Event.clear guardPartName true (env.clearRc guardPartName true == 0),
        Event.resume]) := by
    simp [gardReset, pnorClear, h]
  refine ⟨he, ?_, ?_, ?_, ?_⟩ <;> rw [he] <;>
    simp [List.countP_cons, isClear, isSuspend, isResume, isListParts]

/-- C10 (witness): the bracket at an environment whose GUARD clear runs but
exits non-zero — the failed clear is still followed by the resume. -/
theorem gardReset_bracket_w :
    gardReset envClearRcFail =
      (Except.ok (), [Event.suspend,
        Event.clear guardPartName true false,
        Event.resume]) ∧
    (gardReset envClearRcFail).2.countP isClear = 1 ∧
    (gardReset envClearRcFail).2.countP isSuspend = 1 ∧
    (gardReset envClearRcFail).2.countP isResume = 1 ∧
    (gardReset envClearRcFail).2.countP isListParts = 0 :=
  gardReset_bracket envClearRcFail (by decide)

/-- C2 (counterexample): with the temporary directory created successfully but
`popen` failing for the VERSION-read subprocess, `utils::pflash` throws and
`getPNORVersion` propagates the exception instead of returning empty. -/
theorem getPNORVersion_raises_on_pipe_failure :
    isOkResult (getPNORVersion envReadPopenFail).1 = false ∧
    envReadPopenFail.mkdtempOk = true := by
  decide

/-- C2 (amended): provided the subprocess pipe can be created,
`getPNORVersion` never raises; when `mkdtemp` fails it returns the empty
string without invoking the flashing subprocess, and when the subprocess
exits non-zero it skips the read and returns the empty string.  (When `popen`
itself fails, the `runtime_error` thrown by `pflash` propagates to the
caller.) -/
theorem getPNORVersion_no_raise (env : Env) (h : env.readPopenOk = true) :
    isOkResult (getPNORVersion env).1 = true ∧
    (env.mkdtempOk = false →
      getPNORVersion env = (Except.ok [], [Event.mkdtempCall false])) ∧
    (env.mkdtempOk = true → ¬ env.readRc = 0 →
      getPNORVersion env =
        (Except.ok [], [Event.mkdtempCall true, Event.readVersionCall])) := by
  refine ⟨?_, fun hm => ?_, fun hm hrc => ?_⟩
  · cases hm : env.mkdtempOk
    · simp [getPNORVersion, hm, isOkResult]
    · cases hrc : env.readRc == 0 <;>
        simp [getPNORVersion, pflashRead, hm, h, hrc, isOkResult]
  · simp [getPNORVersion, hm]
  · have hrc2 : (env.readRc == 0) = false := by
      rw [beq_eq_false_iff_ne]
      exact hrc
    simp [getPNORVersion, pflashRead, hm, h, hrc2]

/-- C2 (witness): the amended contract at an environment whose read
subprocess exits non-zero. -/
theorem getPNORVersion_no_raise_w :
    isOkResult (getPNORVersion envReadRcFail).1 = true ∧
    (envReadRcFail.mkdtempOk = false →
      getPNORVersion envReadRcFail = (Except.ok [], [Event.mkdtempCall false])) ∧
    (envReadRcFail.mkdtempOk = true → ¬ envReadRcFail.readRc = 0 →
      getPNORVersion envReadRcFail =
        (Except.ok [], [Event.mkdtempCall true, Event.readVersionCall])) :=
  getPNORVersion_no_raise envReadRcFail (by decide)

/-- C8 (counterexample): on the non-zero-exit path the temporary directory is
created (`mkdtempCall true`) but never removed — the early return of the
source comes before its `remove_all` — contradicting "discarded on every exit
path". -/
theorem getPNORVersion_leaks_tmpdir :
    (getPNORVersion envReadRcFail).2.countP isMkdtempOkCall = 1 ∧
    (getPNORVersion envReadRcFail).2.countP isRemove = 0 ∧
    isOkResult (getPNORVersion envReadRcFail).1 = true := by
  decide

/-- C8 (amended): the temporary directory is removed exactly on the
successful-read exit path, where the `remove_all` outcome is only logged — a
removal failure never changes the returned version; on the non-zero-exit path
(and on a popen exception) the directory is left behind, and when `mkdtemp`
fails no directory was created. -/
theorem getPNORVersion_cleanup (env : Env) (h1 : env.mkdtempOk = true)
    (h2 : env.readPopenOk = true) (h3 : env.readRc = 0) :
    getPNORVersion env =
      (Except.ok (getVersionFromBlob env.versionBytes),
       [Event.mkdtempCall true, Event.readVersionCall,
        Event.removeAll env.removeOk]) ∧
    (getPNORVersion env).2.countP isRemove = 1 := by
  have hrc : (env.readRc == 0) = true := by simpa using h3
  have he : getPNORVersion env =
      (Except.ok (getVersionFromBlob env.versionBytes),
       [Event.mkdtempCall true, Event.readVersionCall,
        Event.removeAll env.removeOk]) := by
    simp [getPNORVersion, pflashRead, h1, h2, hrc]
  exact ⟨he, by rw [he]; simp [List.countP_cons, isRemove]⟩

/-- C8 (witness): the cleanup contract at an environment whose `remove_all`
fails — the removal is still attempted exactly once and the decoded version
is still returned. -/
theorem getPNORVersion_cleanup_w :
    getPNORVersion envRemoveFail =
      (Except.ok (getVersionFromBlob envRemoveFail.versionBytes),
       [Event.mkdtempCall true, Event.readVersionCall,
        Event.removeAll envRemoveFail.removeOk]) ∧
    (getPNORVersion envRemoveFail).2.countP isRemove = 1 :=
  getPNORVersion_cleanup envRemoveFail (by decide) (by decide) (by decide)

theorem countP_suspend_clears (env : Env) (ps : List (List Char × Bool)) :
    (ps.map (fun p => Event.clear p.1 p.2 (env.clearRc p.1 p.2 == 0))).countP
      isSuspend = 0 := by
  induction ps with
  | nil => simp
  | cons p ps ih => simp [List.countP_cons, isSuspend, ih]

theorem countP_resume_clears (env : Env) (ps : List (List Char × Bool)) :
    (ps.map (fun p => Event.clear p.1 p.2 (env.clearRc p.1 p.2 == 0))).countP
      isResume = 0 := by
  induction ps with
  | nil => simp
  | cons p ps ih => simp [List.countP_cons, isResume, ih]

theorem countP_clear_clears (env : Env) (ps : List (List Char × Bool)) :
    (ps.map (fun p => Event.clear p.1 p.2 (env.clearRc p.1 p.2 == 0))).countP
      isClear = ps.length := by
  induction ps with
  | nil => simp
  | cons p ps ih => simp [List.countP_cons, isClear, ih]

/-- C1 (counterexample): an invocation of `ItemUpdaterStatic::reset` with one
discovered candidate whose clear attempt fails because its subprocess pipe
cannot be created: `pflash` throws from inside the loop, suspend has fired
once, and resume is never called — a partition-clear failure that skips the
resume. -/
theorem reset_skips_resume_on_pipe_failure :
    getPartsToClear envClearPopenFail.listing ≠ [] ∧
    (itemUpdaterReset envClearPopenFail).2.countP isSuspend = 1 ∧
    (itemUpdaterReset envClearPopenFail).2.countP isResume = 0 ∧
    isOkResult (itemUpdaterReset envClearPopenFail).1 = false := by
  decide

/-- C1 (amended): for every invocation of `ItemUpdaterStatic::reset` in which
each discovered candidate's clear subprocess pipe is created (the subprocess
runs, with any exit status whatever), the trace is exactly the inventory
query, then one suspend, then the clears in listing order, then one resume —
so suspend precedes every clear and resume follows every clear, once each,
for any number of non-zero-exit clear failures including zero candidates.  A
pipe-creation failure during a clear instead propagates an exception that
skips the resume. -/
theorem reset_bracket (env : Env) (hl : env.listPopenOk = true)
    (hc : ∀ p ∈ getPartsToClear env.listing,
      env.clearPopenOk p.1 p.2 = true) :
    itemUpdaterReset env =
      (Except.ok (), Event.listParts :: Event.suspend ::
        ((getPartsToClear env.listing).map
          (fun p => Event.clear p.1 p.2 (env.clearRc p.1 p.2 == 0)) ++
         [Event.resume])) ∧
    (itemUpdaterReset env).2.countP isSuspend = 1 ∧
    (itemUpdaterReset env).2.countP isResume = 1 ∧
    (itemUpdaterReset env).2.countP isClear =
      (getPartsToClear env.listing).length := by
  have he : itemUpdaterReset env =
      (Except.ok (), Event.listParts :: Event.suspend ::
        ((getPartsToClear env.listing).map
          (fun p => Event.clear p.1 p.2 (env.clearRc p.1 p.2 == 0)) ++
         [Event.resume])) := by
    simp [itemUpdaterReset, hl, clearLoop_ok env _ hc]
  refine ⟨he, ?_, ?_, ?_⟩ <;> rw [he] <;>
    simp [List.countP_cons, List.countP_append, isSuspend, isResume, isClear,
      isListParts, countP_suspend_clears, countP_resume_clears,
      countP_clear_clears]

/-- C1 (witness): the bracket at an environment whose single discovered
candidate's clear runs but exits non-zero — the failed clear is still
preceded by the one suspend and followed by the one resume. -/
theorem reset_bracket_w :
    itemUpdaterReset envClearRcFail =
      (Except.ok (), Event.listParts :: Event.suspend ::
        ((getPartsToClear envClearRcFail.listing).map
          (fun p => Event.clear p.1 p.2 (envClearRcFail.clearRc p.1 p.2 == 0)) ++
         [Event.resume])) ∧
    (itemUpdaterReset envClearRcFail).2.countP isSuspend = 1 ∧
    (itemUpdaterReset envClearRcFail).2.countP isResume = 1 ∧
    (itemUpdaterReset envClearRcFail).2.countP isClear =
      (getPartsToClear envClearRcFail.listing).length :=
  reset_bracket envClearRcFail (by decide) (by decide)

/-- C5: when the collaborators derive a non-empty version, a non-empty
extendedVersion and a (fresh) non-empty id, `processPNORImage` registers
exactly one new entity — keyed by the id, in the `Active` state, carrying the
host-inventory association tuple, with redundancyPriority 0 — together with
one companion version record, and attaches all three association edges:
active, updateable, and functional. -/
theorem processPNORImage_active (gV : String → String × String)
    (gId : String → String) (s : UState) (fv v ev id : String)
    (hgv : gV fv = (v, ev)) (hgid : gId v = id)
    (hv : ¬ v = "") (hev : ¬ ev = "") (hid : ¬ id = "")
    (ha : s.activations.lookup id = none)
    (hvs : s.versions.lookup id = none) :
    (processPNORImage gV gId s fv).activations.lookup id = some
      ({ versionId := id, path := SOFTWARE_OBJPATH ++ "/" ++ id,
         extendedVersion := ev, activation := ActState.Active,
         associations := [(ACTIVATION_FWD_ASSOCIATION,
           ACTIVATION_REV_ASSOCIATION, HOST_INVENTORY_PATH)],
         redundancyPriority := some 0 }) ∧
    (processPNORImage gV gId s fv).activations.length =
      s.activations.length + 1 ∧
    (processPNORImage gV gId s fv).versions.length = s.versions.length + 1 ∧
    (SOFTWARE_OBJPATH ++ "/" ++ id) ∈
      (processPNORImage gV gId s fv).activeAssocs ∧
    (SOFTWARE_OBJPATH ++ "/" ++ id) ∈
      (processPNORImage gV gId s fv).updateableAssocs ∧
    id ∈ (processPNORImage gV gId s fv).functionalAssocs := by
  simp [processPNORImage, hgv, hgid, hv, hev, hid, mapInsert, ha, hvs,
    setPriority, createActiveAssociation, createUpdateableAssociation,
    updateFunctionalAssociation, List.lookup]

/-- C5 (witness): the Active registration evaluated from the empty state with
collaborators returning version `v1`, extendedVersion `e1`, id `id1`. -/
theorem processPNORImage_active_w :
    (processPNORImage gVBoth gIdSome emptyUState "").activations.lookup "id1" =
      some
      ({ versionId := "id1", path := SOFTWARE_OBJPATH ++ "/" ++ "id1",
         extendedVersion := "e1", activation := ActState.Active,
         associations := [(ACTIVATION_FWD_ASSOCIATION,
           ACTIVATION_REV_ASSOCIATION, HOST_INVENTORY_PATH)],
         redundancyPriority := some 0 }) ∧
    (processPNORImage gVBoth gIdSome emptyUState "").activations.length =
      emptyUState.activations.length + 1 ∧
    (processPNORImage gVBoth gIdSome emptyUState "").versions.length =
      emptyUState.versions.length + 1 ∧
    (SOFTWARE_OBJPATH ++ "/" ++ "id1") ∈
      (processPNORImage gVBoth gIdSome emptyUState "").activeAssocs ∧
    (SOFTWARE_OBJPATH ++ "/" ++ "id1") ∈
      (processPNORImage gVBoth gIdSome emptyUState "").updateableAssocs ∧
    "id1" ∈ (processPNORImage gVBoth gIdSome emptyUState "").functionalAssocs :=
  processPNORImage_active gVBoth gIdSome emptyUState "" "v1" "e1" "id1"
    rfl rfl (by decide) (by decide) (by decide) rfl rfl

/-- C6: when the collaborators derive a non-empty version but an empty
extendedVersion (and a fresh non-empty id), `processPNORImage` registers the
entity in the `Invalid` state with no redundancy priority and no association
tuple, leaves the active-association edges untouched, but still attaches the
updateable association to the image path. -/
theorem processPNORImage_invalid (gV : String → String × String)
    (gId : String → String) (s : UState) (fv v id : String)
    (hgv : gV fv = (v, "")) (hgid : gId v = id)
    (hv : ¬ v = "") (hid : ¬ id = "")
    (ha : s.activations.lookup id = none)
    (hvs : s.versions.lookup id = none) :
    (processPNORImage gV gId s fv).activations.lookup id = some
      ({ versionId := id, path := SOFTWARE_OBJPATH ++ "/" ++ id,
         extendedVersion := "", activation := ActState.Invalid,
         associations := [], redundancyPriority := none }) ∧
    (processPNORImage gV gId s fv).activeAssocs = s.activeAssocs ∧
    (SOFTWARE_OBJPATH ++ "/" ++ id) ∈
      (processPNORImage gV gId s fv).updateableAssocs ∧
    (processPNORImage gV gId s fv).activations.length =
      s.activations.length + 1 := by
  simp [processPNORImage, hgv, hgid, hv, hid, mapInsert, ha, hvs,
    setPriority, createActiveAssociation, createUpdateableAssociation,
    updateFunctionalAssociation, List.lookup]

/-- C6 (witness): the Invalid registration evaluated from the empty state with
collaborators returning version `v1`, empty extendedVersion, id `id1`. -/
theorem processPNORImage_invalid_w :
    (processPNORImage gVNoExt gIdSome emptyUState "").activations.lookup "id1" =
      some
      ({ versionId := "id1", path := SOFTWARE_OBJPATH ++ "/" ++ "id1",
         extendedVersion := "", activation := ActState.Invalid,
         associations := [], redundancyPriority := none }) ∧
    (processPNORImage gVNoExt gIdSome emptyUState "").activeAssocs =
      emptyUState.activeAssocs ∧
    (SOFTWARE_OBJPATH ++ "/" ++ "id1") ∈
      (processPNORImage gVNoExt gIdSome emptyUState "").updateableAssocs ∧
    (processPNORImage gVNoExt gIdSome emptyUState "").activations.length =
      emptyUState.activations.length + 1 :=
  processPNORImage_invalid gVNoExt gIdSome emptyUState "" "v1" "id1"
    rfl rfl (by decide) (by decide) rfl rfl

/-- C7: when the collaborator derives an empty id, `processPNORImage` returns
with the state unchanged — no entity registered, no version record, no
association edges, and the functional marker untouched; the early return is a
normal outcome, not an exception (the embedding is a total function on this
path). -/
theorem processPNORImage_empty_id (gV : String → String × String)
    (gId : String → String) (s : UState) (fv : String)
    (hgid : gId (gV fv).1 = "") :
    processPNORImage gV gId s fv = s := by
  simp [processPNORImage, hgid]

/-- C7 (witness): the unchanged-state result evaluated at an arbitrary
concrete state whose fields are all non-trivial. -/
theorem processPNORImage_empty_id_w :
    processPNORImage gVBoth gIdNone
      ({ activations := [], versions := [], functionalVersionId := "keep",
         activeAssocs := ["a"], updateableAssocs := ["u"],
         functionalAssocs := ["f"] }) "" =
      ({ activations := [], versions := [], functionalVersionId := "keep",
         activeAssocs := ["a"], updateableAssocs := ["u"],
         functionalAssocs := ["f"] }) :=
  processPNORImage_empty_id gVBoth gIdNone
    ({ activations := [], versions := [], functionalVersionId := "keep",
       activeAssocs := ["a"], updateableAssocs := ["u"],
       functionalAssocs := ["f"] }) "" rfl

theorem processPNORImage_functional (gV : String → String × String)
    (gId : String → String) (s : UState) (fv : String) :
    (processPNORImage gV gId s fv).functionalVersionId =
      if gId (gV fv).1 = "" then s.functionalVersionId
      else gId (gV fv).1 := by
  by_cases hid : gId (gV fv).1 = ""
  · simp [processPNORImage, hid]
  · simp only [processPNORImage, if_neg hid, updateFunctionalAssociation]

theorem runProcess_functional (gV : String → String × String)
    (gId : String → String) (s : UState) (fvs : List String) :
    (runProcess gV gId s fvs).functionalVersionId =
      lastNonEmptyId gV gId s.functionalVersionId fvs := by
  induction fvs generalizing s with
  | nil => rfl
  | cons fv fvs ih =>
    have h1 : runProcess gV gId s (fv :: fvs) =
        runProcess gV gId (processPNORImage gV gId s fv) fvs := rfl
    rw [h1, ih, processPNORImage_functional]
    rfl

/-- C9: `isVersionFunctional` answers true exactly for the id equal to the
current functional marker, and over any run of `processPNORImage` invocations
the marker is the id of the most recent invocation that derived a non-empty
id (the marker is overwritten wholesale on each non-empty registration and
untouched otherwise), so `isVersionFunctional` answers true only for that
most recently registered non-empty id. -/
theorem isVersionFunctional_marker (gV : String → String × String)
    (gId : String → String) (s : UState) (x : String) (fvs : List String) :
    (isVersionFunctional s x = true ↔ x = s.functionalVersionId) ∧
    (isVersionFunctional (runProcess gV gId s fvs) x = true ↔
      x = lastNonEmptyId gV gId s.functionalVersionId fvs) := by
  constructor
  · simp [isVersionFunctional]
  · rw [show isVersionFunctional (runProcess gV gId s fvs) x =
        (x == (runProcess gV gId s fvs).functionalVersionId) from rfl,
      runProcess_functional]
    simp
